import Mathlib

/-!
Verification of the artificial-senses capture-to-publish pipeline.

Shallow embedding of the repository's Python sources:
  src/artificial_senses/segmentation.py  (Segmentation.process)
  src/artificial_senses/processor.py     (Processor: run/stop/get_dataset/_process_frame)
  src/artificial_senses/camera.py        (RealSenseCamera: get_frames/stop)

Conventions of the embedding:
  - a uint8 BGR image (numpy array of shape (h, w, 3)) is a list of rows of
    pixels, each pixel a triple of channel values;
  - floating point sensor readings are modelled exactly as rationals;
  - external collaborators (the YOLO model, cv2.drawContours as a rasterizer,
    the RealSense colorizer / pointcloud / get_distance, the aligner) are
    passed in as explicit parameters or modelled from their documented
    behavior, with a comment at each such definition;
  - Python exceptions are an explicit `Except` error value.
-/

namespace ArtificialSenses

/-- Python exceptions that the embedded code paths can raise. -/
inductive PyErr
  | indexError
  | runtimeError
deriving DecidableEq, Repr

/-- A pixel of a 3-channel uint8 image, in the channel order of the array
(BGR for OpenCV images). -/
abbrev Pix := ℕ × ℕ × ℕ

/-- A 3-channel uint8 image (numpy array of shape (h, w, 3)): rows of pixels. -/
abbrev Img := List (List Pix)

/-- numpy `np.zeros(color_image.shape, np.uint8)`: an all-zero image of the
same shape as the given one. -/
def zerosLike (img : Img) : Img :=
  img.map (fun row => row.map (fun _ => (0, 0, 0)))

/-- image.shape[0]: number of rows. -/
def shape0 (img : Img) : ℕ := img.length

/-- image.shape[1]: number of columns. -/
def shape1 (img : Img) : ℕ := (img.headD []).length

/-- OpenCV cvRound: round to nearest integer, ties to even. -/
def cvRound (q : ℚ) : ℤ :=
  if q - ⌊q⌋ < 1/2 then ⌊q⌋
  else if 1/2 < q - ⌊q⌋ then ⌊q⌋ + 1
  else if 2 ∣ ⌊q⌋ then ⌊q⌋ else ⌊q⌋ + 1

/-- OpenCV saturate_cast<uchar>: clamp an integer into the uint8 range. -/
def saturateByte (z : ℤ) : ℕ := (max 0 (min 255 z)).toNat

/-- Apply a binary channel operation to two pixels, channel by channel. -/
def pixMap2 (f : ℕ → ℕ → ℕ) (p q : Pix) : Pix :=
  (f p.1 q.1, f p.2.1 q.2.1, f p.2.2 q.2.2)

/-- cv2.addWeighted(src1, alpha, src2, beta, gamma) on uint8 images:
per channel, saturate_cast<uchar>(cvRound(a*alpha + b*beta + gamma)). -/
def addWeighted (src1 : Img) (alpha : ℚ) (src2 : Img) (beta gamma : ℚ) : Img :=
  List.zipWith
    (List.zipWith (pixMap2 (fun a b =>
      saturateByte (cvRound ((a : ℚ) * alpha + (b : ℚ) * beta + gamma)))))
    src1 src2

/-- Python `int(x)` on a float: truncation toward zero. -/
def pyInt (q : ℚ) : ℤ := if 0 ≤ q then ⌊q⌋ else ⌈q⌉

/-- A mask polygon: the integer points of `c.masks.xy.pop().astype(np.int32)`. -/
abbrev Contour := List (ℤ × ℤ)

/-- The spatial moments cv2.moments returns that this code reads. -/
structure Moments where
  m00 : ℚ
  m10 : ℚ
  m01 : ℚ
deriving DecidableEq, Repr

/-- The directed edges of the closed polygon, in OpenCV's traversal order:
the first edge runs from the last point to the first. -/
def polyEdges (ct : Contour) : List ((ℤ × ℤ) × (ℤ × ℤ)) :=
  match ct.getLast? with
  | none => []
  | some lastP => (lastP :: ct.dropLast).zip ct

/-- The cross term dxy = x_prev * y_cur − x_cur * y_prev of one polygon edge. -/
def edgeCross (e : (ℤ × ℤ) × (ℤ × ℤ)) : ℤ :=
  e.1.1 * e.2.2 - e.2.1 * e.1.2

/-- cv2.moments on a polygonal contour (OpenCV contourMoments, Green's
theorem), restricted to m00, m10, m01. OpenCV normalizes the sign so that
m00 ≥ 0, and leaves all moments zero when the signed area vanishes. -/
def contourMoments (ct : Contour) : Moments :=
  let es := polyEdges ct
  let a00 : ℤ := (es.map edgeCross).sum
  let a10 : ℤ := (es.map (fun e => edgeCross e * (e.1.1 + e.2.1))).sum
  let a01 : ℤ := (es.map (fun e => edgeCross e * (e.1.2 + e.2.2))).sum
  if a00 = 0 then ⟨0, 0, 0⟩
  else if 0 < a00 then ⟨(a00 : ℚ) / 2, (a10 : ℚ) / 6, (a01 : ℚ) / 6⟩
  else ⟨-((a00 : ℚ) / 2), -((a10 : ℚ) / 6), -((a01 : ℚ) / 6)⟩

/-- One object returned by the model: its class label and its mask polygon
(the narrow contract of the external YOLO model). -/
structure Detection where
  label : String
  contour : Contour
deriving DecidableEq

/-- One results object of the model's output stream: the detections for one
input image. -/
abbrev Results := List Detection

/-- Segmentation (segmentation.py): holds the configured label allow-list. -/
structure Segmentation where
  include_labels : List String
deriving DecidableEq

/-- Segmentation.process (segmentation.py lines 27-57).

External collaborators are parameters:
  `results` is what `self._yolo_model.predict(color_image, stream=True, ...)`
  yields (a stream of per-image results objects; a generator object is always
  truthy in Python, so `if results:` is taken unconditionally and
  `list(results)[0]` raises IndexError on an empty stream);
  `depth` is `depth_frame.get_distance` (meters, as an exact rational);
  `draw` is `cv2.drawContours(img, [contour], -1, (0, 0, 255), cv2.FILLED)`,
  the external rasterizer, returning the updated image. -/
def Segmentation.process (seg : Segmentation) (color_image : Img)
    (depth : ℤ → ℤ → ℚ) (results : List Results)
    (draw : Img → Contour → Img) : Except PyErr (Img × List (ℤ × ℤ × ℚ)) :=
  match results with
  | [] => .error .indexError
  | result :: _ =>
    let included := result.filter (fun c => seg.include_labels.contains c.label)
    let all_contours := included.map (fun c => c.contour)
    let segmented := all_contours.foldl draw (zerosLike color_image)
    let segmented := addWeighted color_image 1 segmented (1/2) 0
    let centroids := all_contours.filterMap (fun contour =>
      let m := contourMoments contour
      if m.m00 ≠ 0 then
        let cx := pyInt (m.m10 / m.m00)
        let cy := pyInt (m.m01 / m.m00)
        some (cx, cy, depth cx cy)
      else none)
    .ok (segmented, centroids)

/-- A well-formed uint8 pixel: every channel value fits in a byte. -/
def wfPix (p : Pix) : Prop := p.1 ≤ 255 ∧ p.2.1 ≤ 255 ∧ p.2.2 ≤ 255

/-- A well-formed uint8 image: every pixel is well formed. -/
def wfImg (img : Img) : Prop := ∀ row ∈ img, ∀ p ∈ row, wfPix p

instance (p : Pix) : Decidable (wfPix p) := by unfold wfPix; infer_instance

instance (img : Img) : Decidable (wfImg img) := by unfold wfImg; infer_instance

/-! Camera adapter (camera.py). -/

/-- A RealSense depth frame as this pipeline observes it: the only operation
read from it is `get_distance(x, y)`, the metric distance at a pixel in
meters, modelled as an exact rational (0 models unreadable depth). -/
structure DepthFrame where
  get_distance : ℤ → ℤ → ℚ

/-- Per-pixel 3D vertex array (`points.get_vertices(2)` reshaped to
height×width rows of 3D points). -/
abbrev Verts := List (List (ℚ × ℚ × ℚ))

/-- One RGBA entry of the pointcloud color array. -/
abbrev RGBA := ℕ × ℕ × ℕ × ℕ

/-- The pointcloud color array: rows of RGBA entries. -/
abbrev ColorsArr := List (List RGBA)

/-- numpy `np.concatenate((depth_colormap, ones), axis=-1)` where `ones` is an
all-255 single-channel array of the same height and width: append alpha 255 to
every pixel of the colormap. -/
def withAlpha255 (img : Img) : ColorsArr :=
  img.map (fun row => row.map (fun p => (p.1, p.2.1, p.2.2, 255)))

/-- numpy `np.flipud`: reverse the row order. -/
def flipud (img : Img) : Img := img.reverse

/-- Frameset (camera.py lines 26-32). -/
structure Frameset where
  depth_frame : DepthFrame
  depth_image : Img
  color_image : Img
  pointcloud_vertexes : Verts
  pointcloud_colors : ColorsArr

/-- The result of `self._align.process(frames)` on one fetched frame pair:
either aligned frame can be missing/invalid, which is falsy in Python
(`if not depth_frame or not color_frame`). -/
structure AlignedFrames where
  depth_frame : Option DepthFrame
  color_frame : Option Img

/-- External collaborators used inside RealSenseCamera.get_frames:
`colorize` is `rs.colorizer().colorize` (false-color depth palette, a
3-channel uint8 image of the depth frame); `pointcloud` is
`rs.pointcloud().calculate` followed by `get_vertices(2)` and the reshape. -/
structure CameraEnv where
  colorize : DepthFrame → Img
  pointcloud : DepthFrame → Verts

/-- RealSenseCamera.get_frames (camera.py lines 89-125): loop over the
incoming aligned frame pairs; a pair with a missing depth or color frame is
skipped (`continue`) and the loop waits for the next pair; the first fully
valid pair is turned into a Frameset. The input list is the stream of aligned
frame pairs the sensor produces; an exhausted stream models blocking forever
(the call never returns), hence the Option result. -/
def RealSenseCamera.get_frames (env : CameraEnv) : List AlignedFrames → Option Frameset
  | [] => none
  | f :: rest =>
    match f.depth_frame, f.color_frame with
    | some depth_frame, some color_image =>
      let depth_colormap := env.colorize depth_frame
      some
        { depth_frame := depth_frame
          depth_image := flipud depth_colormap
          color_image := color_image
          pointcloud_vertexes := env.pointcloud depth_frame
          pointcloud_colors := withAlpha255 depth_colormap }
    | _, _ => RealSenseCamera.get_frames env rest

/-- Streaming state of the librealsense pipeline session owned by the camera. -/
inductive PipelineState
  | streaming
  | stopped
deriving DecidableEq

/-- Modelled external collaborator: `rs.pipeline().stop()`. Stopping an
active pipeline ends streaming; calling stop on a pipeline that is not
streaming raises RuntimeError (librealsense wrong_api_call_sequence_error,
"stop() cannot be called before start()"). -/
def rsPipelineStop : PipelineState → Except PyErr PipelineState
  | .streaming => .ok .stopped
  | .stopped => .error .runtimeError

/-- RealSenseCamera.stop (camera.py lines 130-131): delegates to
`self._pipeline.stop()` unconditionally, with no guard against the session
being already closed. -/
def RealSenseCamera.stop (s : PipelineState) : Except PyErr PipelineState :=
  rsPipelineStop s

/-! Pipeline driver (processor.py). -/

/-- pyglet.image.ImageData(width, height, fmt, data): a render-ready pixel
buffer. -/
structure ImageData where
  width : ℕ
  height : ℕ
  format : String
  data : List ℕ
deriving DecidableEq

/-- numpy `image.tobytes()`: the raw byte sequence, rows then pixels then
channels. -/
def tobytes (image : Img) : List ℕ :=
  (image.map (fun row => (row.map (fun p => [p.1, p.2.1, p.2.2])).flatten)).flatten

/-- image.shape[0] of a (h, w, 3) array. -/
def imgHeight (image : Img) : ℕ := shape0 image

/-- cv2.cvtColor(image, cv2.COLOR_BGR2RGB): swap channels 0 and 2 of every
pixel. -/
def cvtColor_BGR2RGB (image : Img) : Img :=
  image.map (fun row => row.map (fun p => (p.2.2, p.2.1, p.1)))

/-- cv2.flip(image, 0): flip vertically (reverse the row order). -/
def cv2flip0 (image : Img) : Img := image.reverse

/-- Processor._cv2img_to_pyglet (processor.py lines 68-76): convert BGR to
RGB, flip vertically, wrap in ImageData(shape[1], shape[0], "RGB", bytes). -/
def Processor.cv2img_to_pyglet (image : Img) : ImageData :=
  let image2 := cv2flip0 (cvtColor_BGR2RGB image)
  ⟨shape1 image2, shape0 image2, "RGB", tobytes image2⟩

/-- Processor._nparray_to_cv2img (processor.py lines 78-85): wrap the array
as ImageData(shape[1], shape[0], "RGB", bytes) with no conversion. -/
def Processor.nparray_to_cv2img (image : Img) : ImageData :=
  ⟨shape1 image, shape0 image, "RGB", tobytes image⟩

/-- Dataset (processor.py lines 32-39). Centroids are stored after the
integer-millimeter conversion of _process_frame. -/
structure Dataset where
  color_image : ImageData
  depth_paletted_image : ImageData
  segmented_image : ImageData
  centroids : List (ℤ × ℤ × ℤ)
  pointcloud_vertexes : Verts
  pointcloud_colors : ColorsArr
deriving DecidableEq

/-- queue.Queue from the Python standard library, as its state: an unbounded
FIFO list of buffered items, front of the list first out. -/
abbrev Queue (α : Type) := List α

/-- queue.Queue.put: append the item at the back; never blocks (the queue is
unbounded). -/
def Queue.put (q : Queue α) (a : α) : Queue α := q ++ [a]

/-- queue.Queue.empty: whether no item is buffered. -/
def Queue.emptyq (q : Queue α) : Bool := q.isEmpty

/-- queue.Queue.get_nowait: remove and return the oldest item; `none` models
the queue.Empty exception on an empty queue. Total and non-blocking. -/
def Queue.get_nowait : Queue α → Option (α × Queue α)
  | [] => none
  | a :: rest => some (a, rest)

/-- Processor.get_dataset (processor.py lines 62-66): non-blocking; returns
None if the queue reports empty, else get_nowait. Returns the (optional)
dataset together with the queue state left behind. -/
def Processor.get_dataset (q : Queue Dataset) : Option Dataset × Queue Dataset :=
  if Queue.emptyq q then (none, q)
  else
    match Queue.get_nowait q with
    | none => (none, q)
    | some (d, rest) => (some d, rest)

/-- Processor._process_frame (processor.py lines 87-105): run segmentation on
the frameset the camera returned, convert each centroid's distance with
`int(c[2] / self._camera.depth_scale)`, assemble the Dataset, and put it on
the queue. The model results stream and the cv2 rasterizer are passed through
to Segmentation.process. -/
def Processor.process_frame (seg : Segmentation) (depth_scale : ℚ)
    (fs : Frameset) (results : List Results) (draw : Img → Contour → Img)
    (q : Queue Dataset) : Except PyErr (Queue Dataset) :=
  match seg.process fs.color_image fs.depth_frame.get_distance results draw with
  | .error e => .error e
  | .ok (segmented_image, centroids0) =>
    let centroids := centroids0.map (fun c => (c.1, c.2.1, pyInt (c.2.2 / depth_scale)))
    .ok (Queue.put q
      { color_image := Processor.cv2img_to_pyglet fs.color_image
        depth_paletted_image := Processor.nparray_to_cv2img fs.depth_image
        segmented_image := Processor.cv2img_to_pyglet segmented_image
        centroids := centroids
        pointcloud_vertexes := fs.pointcloud_vertexes
        pointcloud_colors := fs.pointcloud_colors })

/-- Observable state of the Processor thread for the shutdown protocol:
the `self._running` flag, whether `run()` has returned (`finished`), and
call-count instrumentation of the two collaborators
(`camera.get_frames` and `segmentation.process`). -/
structure ProcState where
  running : Bool
  finished : Bool
  camera_calls : ℕ
  segment_calls : ℕ
deriving DecidableEq

/-- One iteration boundary of Processor.run (processor.py lines 51-55):
while the thread has not finished, test `self._running`; if set, perform
`self._process_frame()` (one camera call and one segmentation call);
otherwise fall out of the `while` loop and finish. A finished thread takes
no further steps. -/
def Processor.loopStep (s : ProcState) : ProcState :=
  if s.finished then s
  else if s.running then
    { s with camera_calls := s.camera_calls + 1, segment_calls := s.segment_calls + 1 }
  else
    { s with finished := true }

/-- The first half of Processor.stop (processor.py line 59):
`self._running = False`. -/
def Processor.setStopFlag (s : ProcState) : ProcState := { s with running := false }

/-- Postcondition of Processor.stop (processor.py lines 57-60): stop clears
the running flag and then calls `self.join()`, which returns only once the
thread's `run()` has returned; hence when stop() returns, the loop has
finished. -/
def Processor.stopReturned (s : ProcState) : Prop := s.finished = true

/-! Concrete inputs used by counterexamples and witnesses. -/

/-- A tiny concrete 1×1 ImageData. -/
def sampleImageData (n : ℕ) : ImageData := ⟨1, 1, "RGB", [n, n, n]⟩

/-- A tiny concrete Dataset, distinguishable by `n`. -/
def sampleDataset (n : ℕ) : Dataset :=
  ⟨sampleImageData n, sampleImageData n, sampleImageData n, [], [], []⟩

/-- The contour of the filled rectangle with corners (10,10) and (20,20). -/
def rectCt : Contour := [(10, 10), (20, 10), (20, 20), (10, 20)]

/-- A triangle contour whose moment centroid (2/3, 2/3) is not integral. -/
def triCt : Contour := [(0, 0), (2, 0), (0, 2)]

/-- A concrete depth frame reading 3 meters everywhere. -/
def sampleDF : DepthFrame := ⟨fun _ _ => 3⟩

/-- Concrete camera collaborators: a constant colorizer and pointcloud. -/
def sampleEnv : CameraEnv := ⟨fun _ => [[(1, 2, 3)]], fun _ => [[(0, 0, 0)]]⟩

/-- A stream whose first aligned pair is invalid (missing depth) and whose
second pair is fully valid. -/
def samplePairs : List AlignedFrames :=
  [⟨none, some [[(9, 9, 9)]]⟩, ⟨some sampleDF, some [[(9, 9, 9)]]⟩]

/-- The frameset get_frames builds from the second pair of samplePairs. -/
def sampleFrameset : Frameset :=
  { depth_frame := sampleDF
    depth_image := flipud (sampleEnv.colorize sampleDF)
    color_image := [[(9, 9, 9)]]
    pointcloud_vertexes := sampleEnv.pointcloud sampleDF
    pointcloud_colors := withAlpha255 (sampleEnv.colorize sampleDF) }

/-- A frameset with empty image buffers and the 3-meter depth frame, as a
small end-to-end input for _process_frame. -/
def c5fs : Frameset := ⟨sampleDF, [], [], [], []⟩

/-! Helper lemmas. -/

lemma foldl_put_length (ds : List Dataset) (q : Queue Dataset) :
    (ds.foldl Queue.put q).length = q.length + ds.length := by
  induction ds generalizing q with
  | nil => simp
  | cons d ds ih =>
    simp only [List.foldl_cons, ih, Queue.put, List.length_append, List.length_cons,
      List.length_nil]
    omega

lemma satByteRound (a : ℕ) (h : a ≤ 255) :
    saturateByte (cvRound ((a : ℚ) * 1 + ((0 : ℕ) : ℚ) * (1/2) + 0)) = a := by
  have h1 : ((a : ℚ) * 1 + ((0 : ℕ) : ℚ) * (1/2) + 0) = (a : ℚ) := by push_cast; ring
  rw [h1]
  have h2 : cvRound (a : ℚ) = (a : ℤ) := by
    unfold cvRound
    rw [Int.floor_natCast]
    norm_num
  rw [h2]
  unfold saturateByte
  omega

lemma zipWith_zeros_row (f : ℕ → ℕ → ℕ) (hf : ∀ a, a ≤ 255 → f a 0 = a) (row : List Pix) :
    (∀ p ∈ row, wfPix p) →
    List.zipWith (pixMap2 f) row (row.map (fun _ => ((0, 0, 0) : Pix))) = row := by
  induction row with
  | nil => intro _; rfl
  | cons p ps ih =>
    intro h
    obtain ⟨h1, h2, h3⟩ := h p (List.mem_cons_self p ps)
    simp only [List.map_cons, List.zipWith_cons_cons]
    rw [ih (fun q hq => h q (List.mem_cons_of_mem p hq))]
    unfold pixMap2
    rw [hf _ h1, hf _ h2, hf _ h3]

lemma addWeighted_zerosLike (img : Img) :
    wfImg img → addWeighted img 1 (zerosLike img) (1/2) 0 = img := by
  unfold addWeighted zerosLike
  induction img with
  | nil => intro _; rfl
  | cons row rows ih =>
    intro h
    simp only [List.map_cons, List.zipWith_cons_cons]
    rw [ih (fun r hr => h r (List.mem_cons_of_mem row hr))]
    rw [zipWith_zeros_row _ (fun a ha => satByteRound a ha) row
      (h row (List.mem_cons_self row rows))]

lemma contourMoments_rect : contourMoments rectCt = ⟨100, 1500, 1500⟩ := by
  norm_num [contourMoments, rectCt, polyEdges, edgeCross, List.getLast?, List.dropLast,
    List.zip, List.zipWith]

lemma contourMoments_tri : contourMoments triCt = ⟨2, 4/3, 4/3⟩ := by
  norm_num [contourMoments, triCt, polyEdges, edgeCross, List.getLast?, List.dropLast,
    List.zip, List.zipWith]

/-! Claim theorems. -/

/-- Claim C1, counterexample: publishing dataset A then dataset B and then
taking yields A, not B, and B (not A) is the dataset left behind — the
handoff is a FIFO queue, nothing is overwritten. -/
theorem c1_counterexample :
    (Processor.get_dataset
        (Queue.put (Queue.put ([] : Queue Dataset) (sampleDataset 1)) (sampleDataset 2))).1
      = some (sampleDataset 1) ∧
    sampleDataset 1 ≠ sampleDataset 2 := by
  exact ⟨rfl, by decide⟩

/-- Claim C1, amended: publishing dataset A then dataset B before any take
results in A being retrieved by the next take (with B still buffered) and B
by the take after; publish appends to an unbounded FIFO queue and overwrites
nothing, so A is not lost. -/
theorem c1_fifo_handoff (A B : Dataset) :
    Processor.get_dataset (Queue.put (Queue.put ([] : Queue Dataset) A) B) = (some A, [B]) ∧
    Processor.get_dataset [B] = (some B, []) :=
  ⟨rfl, rfl⟩

/-- Claim C2, counterexample: two publishes with no take leave two datasets
buffered at once, so the buffer does not hold at most one dataset. -/
theorem c2_counterexample :
    (Queue.put (Queue.put ([] : Queue Dataset) (sampleDataset 1)) (sampleDataset 2)).length = 2 ∧
    ¬ (Queue.put (Queue.put ([] : Queue Dataset) (sampleDataset 1))
        (sampleDataset 2)).length ≤ 1 := by
  exact ⟨rfl, by decide⟩

/-- Claim C2, amended: the handoff is an unbounded FIFO queue — n publishes
from empty with no take leave exactly n datasets buffered, and every publish
grows the buffered count by one, without bound. -/
theorem c2_unbounded_queue (ds : List Dataset) (q : Queue Dataset) (A : Dataset) :
    (ds.foldl Queue.put ([] : Queue Dataset)).length = ds.length ∧
    (Queue.put q A).length = q.length + 1 := by
  refine ⟨?_, by simp [Queue.put]⟩
  simpa using foldl_put_length ds []

/-- Claim C3: once Processor.stop has returned (the loop has finished), any
number of further scheduler steps leaves the camera call count and the
segmentation call count unchanged — no further get_frames or segmentation
calls occur, so the camera can be closed safely. -/
theorem c3_shutdown_completeness (s : ProcState) (n : ℕ) (h : Processor.stopReturned s) :
    (Processor.loopStep^[n] s).camera_calls = s.camera_calls ∧
    (Processor.loopStep^[n] s).segment_calls = s.segment_calls := by
  have hfix : Processor.loopStep s = s := by
    unfold Processor.stopReturned at h
    unfold Processor.loopStep
    rw [h]
    simp
  rw [Function.iterate_fixed hfix n]
  exact ⟨rfl, rfl⟩

/-- Witness for C3 at a concrete stopped state. -/
theorem c3_witness :
    (Processor.loopStep^[3] ⟨false, true, 5, 7⟩).camera_calls = 5 ∧
    (Processor.loopStep^[3] ⟨false, true, 5, 7⟩).segment_calls = 7 :=
  c3_shutdown_completeness ⟨false, true, 5, 7⟩ 3 rfl

/-- Claim C7, counterexample: taking from a buffer holding two datasets
returns the oldest one but does not clear the buffer — the second dataset is
still there. -/
theorem c7_counterexample :
    (Processor.get_dataset [sampleDataset 1, sampleDataset 2]).1 = some (sampleDataset 1) ∧
    (Processor.get_dataset [sampleDataset 1, sampleDataset 2]).2 ≠ ([] : Queue Dataset) := by
  exact ⟨rfl, by simp [Processor.get_dataset, Queue.emptyq, Queue.get_nowait]⟩

/-- Claim C7, amended: get_dataset on an empty buffer returns None
immediately (total, non-blocking); on a non-empty buffer it returns the
oldest dataset and removes only that dataset, so the buffer is cleared
exactly when it held a single dataset. -/
theorem c7_take_semantics (A : Dataset) (rest : List Dataset) :
    Processor.get_dataset ([] : Queue Dataset) = (none, []) ∧
    Processor.get_dataset (A :: rest) = (some A, rest) :=
  ⟨rfl, rfl⟩

/-- Claim C9, counterexample: the first close of a streaming session
succeeds, but a second close raises RuntimeError from pipeline.stop — it is
not an idempotent no-op. -/
theorem c9_counterexample :
    RealSenseCamera.stop PipelineState.streaming = Except.ok PipelineState.stopped ∧
    RealSenseCamera.stop PipelineState.stopped = Except.error PyErr.runtimeError :=
  ⟨rfl, rfl⟩

/-- Claim C9, amended: close is safe to call exactly once on an open
session; calling it on an already-closed session never succeeds (the
unguarded pipeline.stop raises instead of being a no-op). -/
theorem c9_close_once_only :
    RealSenseCamera.stop PipelineState.streaming = Except.ok PipelineState.stopped ∧
    ∀ s : PipelineState, RealSenseCamera.stop PipelineState.stopped ≠ Except.ok s := by
  refine ⟨rfl, fun s hc => ?_⟩
  simp [RealSenseCamera.stop, rsPipelineStop] at hc

/-- Claim C4, counterexample: with a results object holding zero detections,
process succeeds with an empty centroid list but the returned overlay is the
blend of the color image with an all-zero image — the original color image,
not a zeroed image. -/
theorem c4_counterexample :
    Segmentation.process ⟨["person"]⟩ [[(7, 0, 0)]] (fun _ _ => 0) [[]] (fun i _ => i)
      = Except.ok ([[(7, 0, 0)]], []) ∧
    ([[((7 : ℕ), (0 : ℕ), (0 : ℕ))]] : Img) ≠ zerosLike [[(7, 0, 0)]] := by
  constructor
  · norm_num [Segmentation.process, zerosLike, addWeighted, pixMap2, saturateByte, cvRound,
      List.zipWith, Int.toNat]
  · decide

/-- Claim C4, amended: when the model returns a results object with zero
detections, process returns the color image blended with an all-zero overlay
(pixelwise equal to the original color image) and an empty centroid list,
and does not fail. -/
theorem c4_zero_detections (seg : Segmentation) (color : Img) (depth : ℤ → ℤ → ℚ)
    (draw : Img → Contour → Img) (hw : wfImg color) :
    seg.process color depth [[]] draw = Except.ok (color, []) := by
  simp only [Segmentation.process, List.filter_nil, List.map_nil, List.foldl_nil,
    List.filterMap_nil]
  rw [addWeighted_zerosLike color hw]

/-- Witness for C4 at a concrete color image. -/
theorem c4_witness :
    wfImg [[(5, 6, 7)]] ∧
    Segmentation.process ⟨["person"]⟩ [[(5, 6, 7)]] (fun _ _ => 0) [[]] (fun i _ => i)
      = Except.ok ([[(5, 6, 7)]], []) :=
  ⟨by decide,
    c4_zero_detections ⟨["person"]⟩ [[(5, 6, 7)]] (fun _ _ => 0) (fun i _ => i) (by decide)⟩

/-- Claim C6, counterexample: for the triangle (0,0),(2,0),(0,2) — an allowed
detection — the pipeline computes centroid pixel (0,0), but the image-moment
centroid M10/M00 is 2/3, so the computed centroid does not equal M10/M00:
the code truncates with int(). -/
theorem c6_counterexample :
    (Segmentation.process ⟨["person"]⟩ [] (fun _ _ => 0) [[⟨"person", triCt⟩]]
        (fun i _ => i)).map Prod.snd = Except.ok [((0 : ℤ), (0 : ℤ), (0 : ℚ))] ∧
    (contourMoments triCt).m00 ≠ 0 ∧
    ((0 : ℤ) : ℚ) ≠ (contourMoments triCt).m10 / (contourMoments triCt).m00 := by
  refine ⟨?_, ?_, ?_⟩
  · norm_num [Segmentation.process, List.filterMap, contourMoments_tri, pyInt,
      addWeighted, zerosLike, List.zipWith, Except.map]
  · rw [contourMoments_tri]; norm_num
  · rw [contourMoments_tri]; norm_num

/-- Claim C6, amended: for a detected mask polygon with an allowed label the
computed centroid is the integer truncation (int(M10/M00), int(M01/M00)) of
the image-moment centroid, read with the depth at that truncated pixel; a
degenerate polygon with M00 = 0 yields no centroid; for the filled rectangle
from (10,10) to (20,20) the moment centroid is exactly the geometric center
(15, 15), so the computed centroid equals it. -/
theorem c6_truncated_moment_centroid (seg : Segmentation) (color : Img)
    (depth : ℤ → ℤ → ℚ) (draw : Img → Contour → Img) (d : Detection)
    (hd : d.label ∈ seg.include_labels) :
    (seg.process color depth [[d]] draw).map Prod.snd =
      Except.ok (if (contourMoments d.contour).m00 = 0 then []
        else [(pyInt ((contourMoments d.contour).m10 / (contourMoments d.contour).m00),
               pyInt ((contourMoments d.contour).m01 / (contourMoments d.contour).m00),
               depth (pyInt ((contourMoments d.contour).m10 / (contourMoments d.contour).m00))
                 (pyInt ((contourMoments d.contour).m01 / (contourMoments d.contour).m00)))]) ∧
    (contourMoments rectCt).m10 / (contourMoments rectCt).m00 = 15 ∧
    (contourMoments rectCt).m01 / (contourMoments rectCt).m00 = 15 ∧
    pyInt ((contourMoments rectCt).m10 / (contourMoments rectCt).m00) = 15 := by
  refine ⟨?_, ?_, ?_, ?_⟩
  · have hc : seg.include_labels.contains d.label = true := by
      simpa using hd
    by_cases hm : (contourMoments d.contour).m00 = 0
    · simp [Segmentation.process, List.filterMap, List.filter, Function.comp, hd, hc, hm,
        Except.map]
    · simp [Segmentation.process, List.filterMap, List.filter, Function.comp, hd, hc, hm,
        Except.map]
  · rw [contourMoments_rect]; norm_num
  · rw [contourMoments_rect]; norm_num
  · rw [contourMoments_rect]; norm_num [pyInt]

/-- Witness for C6 at the rectangle detection. -/
theorem c6_witness :
    ((Segmentation.mk ["person"]).process [] (fun _ _ => 0) [[⟨"person", rectCt⟩]]
        (fun i _ => i)).map Prod.snd =
      Except.ok (if (contourMoments rectCt).m00 = 0 then []
        else [(pyInt ((contourMoments rectCt).m10 / (contourMoments rectCt).m00),
               pyInt ((contourMoments rectCt).m01 / (contourMoments rectCt).m00), (0 : ℚ))]) ∧
    (contourMoments rectCt).m10 / (contourMoments rectCt).m00 = 15 ∧
    (contourMoments rectCt).m01 / (contourMoments rectCt).m00 = 15 ∧
    pyInt ((contourMoments rectCt).m10 / (contourMoments rectCt).m00) = 15 :=
  c6_truncated_moment_centroid ⟨["person"]⟩ [] (fun _ _ => 0) (fun i _ => i)
    ⟨"person", rectCt⟩ (by simp)

lemma process_centroid_depth (seg : Segmentation) (color : Img) (depth : ℤ → ℤ → ℚ)
    (results : List Results) (draw : Img → Contour → Img) (img : Img)
    (cs : List (ℤ × ℤ × ℚ))
    (h : seg.process color depth results draw = Except.ok (img, cs)) :
    ∀ c ∈ cs, c.2.2 = depth c.1 c.2.1 := by
  match results with
  | [] => simp [Segmentation.process] at h
  | r :: rs =>
    simp only [Segmentation.process] at h
    rw [Except.ok.injEq, Prod.mk.injEq] at h
    obtain ⟨-, h2⟩ := h
    subst h2
    intro c hc
    rw [List.mem_filterMap] at hc
    obtain ⟨ct, -, hfc⟩ := hc
    by_cases hm : (contourMoments ct).m00 = 0
    · rw [if_neg (not_not_intro hm)] at hfc
      exact absurd hfc (by simp)
    · rw [if_pos hm, Option.some.injEq] at hfc
      subst hfc
      rfl

/-- Claim C5: every centroid of a published Dataset carries distance
int(get_distance(cx, cy) / depth_scale): the integer truncation of the depth
sample read at the centroid pixel divided by the depth scale. -/
theorem c5_distance_mm (seg : Segmentation) (scale : ℚ) (fs : Frameset)
    (results : List Results) (draw : Img → Contour → Img) (q q' : Queue Dataset)
    (hs : 0 < scale)
    (h : Processor.process_frame seg scale fs results draw q = Except.ok q') :
    ∃ d : Dataset, q' = Queue.put q d ∧
      ∀ c ∈ d.centroids,
        c.2.2 = pyInt (fs.depth_frame.get_distance c.1 c.2.1 / scale) := by
  unfold Processor.process_frame at h
  cases hp : seg.process fs.color_image fs.depth_frame.get_distance results draw with
  | error e =>
    rw [hp] at h
    exact absurd h (by simp)
  | ok pr =>
    obtain ⟨img, cs⟩ := pr
    rw [hp] at h
    dsimp only at h
    rw [Except.ok.injEq] at h
    refine ⟨_, h.symm, ?_⟩
    intro c hc
    dsimp only at hc
    rw [List.mem_map] at hc
    obtain ⟨c0, hc0, rfl⟩ := hc
    have hd := process_centroid_depth seg fs.color_image fs.depth_frame.get_distance
      results draw img cs hp c0 hc0
    dsimp only
    rw [hd]

lemma c5run :
    Processor.process_frame ⟨["person"]⟩ 1 c5fs [[⟨"person", rectCt⟩]] (fun i _ => i) []
      = Except.ok [⟨⟨0, 0, "RGB", []⟩, ⟨0, 0, "RGB", []⟩, ⟨0, 0, "RGB", []⟩,
          [(15, 15, 3)], [], []⟩] := by
  norm_num [Processor.process_frame, Segmentation.process, List.filterMap, List.filter,
    contourMoments_rect, pyInt, addWeighted, zerosLike, List.zipWith, Queue.put,
    Processor.cv2img_to_pyglet, Processor.nparray_to_cv2img, cvtColor_BGR2RGB, cv2flip0,
    tobytes, shape0, shape1, c5fs, sampleDF]

/-- Witness for C5 at a concrete end-to-end run. -/
theorem c5_witness :
    (0 : ℚ) < 1 ∧
    ∃ d : Dataset,
      [(⟨⟨0, 0, "RGB", []⟩, ⟨0, 0, "RGB", []⟩, ⟨0, 0, "RGB", []⟩,
          [(15, 15, 3)], [], []⟩ : Dataset)] = Queue.put [] d ∧
      ∀ c ∈ d.centroids, c.2.2 = pyInt (c5fs.depth_frame.get_distance c.1 c.2.1 / 1) :=
  ⟨by norm_num,
    c5_distance_mm ⟨["person"]⟩ 1 c5fs [[⟨"person", rectCt⟩]] (fun i _ => i) [] _
      (by norm_num) c5run⟩

/-- Claim C8: whenever get_frames returns a frameset, the input stream splits
into a silently dropped prefix, each of whose pairs has a missing depth or
color frame, followed by the first fully valid pair, and the frameset is
built exactly from that pair — both frames valid, no error surfaced. -/
theorem c8_alignment_retry (env : CameraEnv) (pairs : List AlignedFrames) (fs : Frameset)
    (h : RealSenseCamera.get_frames env pairs = some fs) :
    ∃ (dropped rest : List AlignedFrames) (df : DepthFrame) (ci : Img),
      pairs = dropped ++ ⟨some df, some ci⟩ :: rest ∧
      (∀ f ∈ dropped, f.depth_frame = none ∨ f.color_frame = none) ∧
      fs = ⟨df, flipud (env.colorize df), ci, env.pointcloud df,
        withAlpha255 (env.colorize df)⟩ := by
  induction pairs with
  | nil => simp [RealSenseCamera.get_frames] at h
  | cons p ps ih =>
    obtain ⟨pd, pc⟩ := p
    cases pd with
    | some df =>
      cases pc with
      | some ci =>
        simp only [RealSenseCamera.get_frames, Option.some.injEq] at h
        exact ⟨[], ps, df, ci, rfl, by simp, h.symm⟩
      | none =>
        simp only [RealSenseCamera.get_frames] at h
        obtain ⟨dropped, rest, df', ci, hsplit, hdrop, hfs⟩ := ih h
        refine ⟨⟨some df, none⟩ :: dropped, rest, df', ci, by rw [hsplit]; rfl, ?_, hfs⟩
        intro f hf
        rcases List.mem_cons.mp hf with rfl | hf'
        · exact Or.inr rfl
        · exact hdrop f hf'
    | none =>
      cases pc with
      | some ci =>
        simp only [RealSenseCamera.get_frames] at h
        obtain ⟨dropped, rest, df', ci', hsplit, hdrop, hfs⟩ := ih h
        refine ⟨⟨none, some ci⟩ :: dropped, rest, df', ci', by rw [hsplit]; rfl, ?_, hfs⟩
        intro f hf
        rcases List.mem_cons.mp hf with rfl | hf'
        · exact Or.inl rfl
        · exact hdrop f hf'
      | none =>
        simp only [RealSenseCamera.get_frames] at h
        obtain ⟨dropped, rest, df', ci', hsplit, hdrop, hfs⟩ := ih h
        refine ⟨⟨none, none⟩ :: dropped, rest, df', ci', by rw [hsplit]; rfl, ?_, hfs⟩
        intro f hf
        rcases List.mem_cons.mp hf with rfl | hf'
        · exact Or.inl rfl
        · exact hdrop f hf'

/-- Witness for C8 at a stream with one invalid then one valid pair. -/
theorem c8_witness :
    ∃ (dropped rest : List AlignedFrames) (df : DepthFrame) (ci : Img),
      samplePairs = dropped ++ ⟨some df, some ci⟩ :: rest ∧
      (∀ f ∈ dropped, f.depth_frame = none ∨ f.color_frame = none) ∧
      sampleFrameset = ⟨df, flipud (sampleEnv.colorize df), ci, sampleEnv.pointcloud df,
        withAlpha255 (sampleEnv.colorize df)⟩ :=
  c8_alignment_retry sampleEnv samplePairs sampleFrameset rfl

/-- Claim C10: every frameset returned by get_frames has pointcloud colors
equal to the false-color depth palette of its own depth frame with alpha
appended, and the alpha channel is 255 at every entry — the color channels
come from the depth colorizer, never from the color image. -/
theorem c10_pointcloud_colors (env : CameraEnv) (pairs : List AlignedFrames) (fs : Frameset)
    (h : RealSenseCamera.get_frames env pairs = some fs) :
    fs.pointcloud_colors = withAlpha255 (env.colorize fs.depth_frame) ∧
    ∀ row ∈ fs.pointcloud_colors, ∀ c ∈ row, c.2.2.2 = 255 := by
  induction pairs with
  | nil => simp [RealSenseCamera.get_frames] at h
  | cons p ps ih =>
    obtain ⟨pd, pc⟩ := p
    cases pd with
    | some df =>
      cases pc with
      | some ci =>
        simp only [RealSenseCamera.get_frames, Option.some.injEq] at h
        subst h
        refine ⟨rfl, ?_⟩
        intro row hrow c hc
        simp only [withAlpha255, List.mem_map] at hrow
        obtain ⟨row0, -, rfl⟩ := hrow
        rw [List.mem_map] at hc
        obtain ⟨p0, -, rfl⟩ := hc
        rfl
      | none =>
        exact ih (by simpa [RealSenseCamera.get_frames] using h)
    | none =>
      cases pc with
      | some ci => exact ih (by simpa [RealSenseCamera.get_frames] using h)
      | none => exact ih (by simpa [RealSenseCamera.get_frames] using h)

/-- Witness for C10 at the same concrete stream. -/
theorem c10_witness :
    sampleFrameset.pointcloud_colors
      = withAlpha255 (sampleEnv.colorize sampleFrameset.depth_frame) ∧
    ∀ row ∈ sampleFrameset.pointcloud_colors, ∀ c ∈ row, c.2.2.2 = 255 :=
  c10_pointcloud_colors sampleEnv samplePairs sampleFrameset rfl

end ArtificialSenses
